import Mathlib

/-!
Shallow embedding of `src/rl_migration_optimizer/optimizer.py`
(class `MockMigrationOptimizer`), the strategy-derivation core of the
rl-migration-optimizer repository.

Python numbers are modelled as rationals (`ℚ`); Python `int(x)` (truncation
toward zero) is `pyInt`; Python `//` on integers (floor division) is
`Int.fdiv`.  The nested result dictionary is modelled as nested structures
with one field per dictionary key.
-/

namespace RLMigration

/-- Python `int(x)` applied to a number: truncation toward zero. -/
def pyInt (q : ℚ) : ℤ := if 0 ≤ q then ⌊q⌋ else ⌈q⌉

/-- Formats a rational with two digits after the decimal point, as the
Python format specifier `:.2f` does (ties are rounded up here; the source
formats an IEEE double, where exact ties essentially never occur). -/
def formatFixed2 (q : ℚ) : String :=
  let c : ℤ := round (q * 100)
  let sign : String := if c < 0 then "-" else ""
  let a : ℕ := c.natAbs
  let frac : ℕ := a % 100
  sign ++ toString (a / 100) ++ "." ++ (if frac < 10 then "0" else "") ++ toString frac

/-- The `table_info` dictionary argument of `optimize_migration_strategy`:
the numeric fields used in arithmetic plus the three descriptive fields
carried into output text. -/
structure TableInfo where
  size_mb : ℚ
  schema_complexity : ℚ
  data_type : String
  source_system : String
  target_system : String
  deriving DecidableEq, Repr

/-- The `resource_constraints` dictionary argument: `cpu_utilization` and
`memory_utilization` are used in arithmetic; the remaining three fields are
accepted but unused by the core formula. -/
structure ResourceConstraints where
  cpu_utilization : ℚ
  memory_utilization : ℚ
  network_bandwidth : ℚ
  disk_io : ℚ
  concurrent_migrations : ℚ
  deriving DecidableEq, Repr

/-- The three-valued risk label computed by the optimizer. -/
inductive RiskLevel where
  | LOW
  | MEDIUM
  | HIGH
  deriving DecidableEq, Repr

/-- The `expected_performance` sub-dictionary of the strategy result. -/
structure ExpectedPerformance where
  quality_score : ℚ
  processing_time_minutes : ℚ
  resource_usage : ℚ
  success_probability : ℚ
  deriving DecidableEq, Repr

/-- The `action_parameters` sub-dictionary of the strategy result. -/
structure ActionParameters where
  batch_size : ℤ
  parallel_workers : ℤ
  compression_level : ℤ
  validation_frequency : ℚ
  retry_strategy : ℤ
  resource_allocation : ℚ
  checkpoint_frequency : ℚ
  error_handling : ℤ
  deriving DecidableEq, Repr

/-- The `fallback_strategy` sub-dictionary inside `recommendations`. -/
structure FallbackStrategy where
  batch_size : ℤ
  parallel_workers : ℤ
  compression_level : ℤ
  validation_frequency : ℚ
  resource_allocation : ℚ
  deriving DecidableEq, Repr

/-- One entry of the `monitoring_points` list. -/
structure MonitoringPoint where
  metric : String
  frequency : String
  threshold : String
  deriving DecidableEq, Repr

/-- The `risk_assessment` sub-dictionary of the strategy result. -/
structure RiskAssessment where
  risk_level : RiskLevel
  risk_factors : List String
  mitigation_strategies : List String
  deriving DecidableEq, Repr

/-- The `recommendations` sub-dictionary of the strategy result. -/
structure Recommendations where
  primary_strategy : String
  fallback_strategy : FallbackStrategy
  monitoring_points : List MonitoringPoint
  deriving DecidableEq, Repr

/-- The full strategy dictionary returned by `optimize_migration_strategy`. -/
structure Strategy where
  expected_performance : ExpectedPerformance
  action_parameters : ActionParameters
  risk_assessment : RiskAssessment
  recommendations : Recommendations
  deriving DecidableEq, Repr

/-- The mutable state of a `MockMigrationOptimizer` instance: the fields
assigned in `__init__` (the logger is write-only configuration and carries
no data relevant to any method). -/
structure MockMigrationOptimizer where
  optimization_history : List Strategy
  current_migration : Option Strategy
  deriving DecidableEq, Repr

/-- Constructor (`__init__`): empty history, no current migration. -/
def MockMigrationOptimizer.init : MockMigrationOptimizer :=
  { optimization_history := [], current_migration := none }

/-- The `optimize_migration_strategy` method.  The Python body reads only
its arguments and assigns no attribute of `self`, so the embedding passes
the instance state through unchanged and returns it next to the strategy
dictionary the method builds. -/
def optimize_migration_strategy (self : MockMigrationOptimizer)
    (table_info : TableInfo) (current_quality : ℚ)
    (resource_constraints : ResourceConstraints) :
    MockMigrationOptimizer × Strategy :=
  let batch_size : ℤ := max 1000 (pyInt (table_info.size_mb * 10))
  let parallel_workers : ℤ := min 8 (max 1 (pyInt (table_info.size_mb / 1000)))
  let quality_score : ℚ :=
    min 0.98 (current_quality + (1 - table_info.schema_complexity) * 0.1)
  let processing_time : ℚ :=
    max 5 (table_info.size_mb / ((parallel_workers : ℚ) * 100))
  let resource_usage : ℚ :=
    min 0.9 (resource_constraints.cpu_utilization + resource_constraints.memory_utilization)
  let success_probability : ℚ := max 0.7 (1 - table_info.schema_complexity * 0.3)
  let risk_level : RiskLevel :=
    if success_probability > 0.9 ∧ quality_score > 0.95 then .LOW
    else if success_probability > 0.8 ∧ quality_score > 0.9 then .MEDIUM
    else .HIGH
  let strategy : Strategy :=
    { expected_performance :=
        { quality_score := quality_score
          processing_time_minutes := processing_time
          resource_usage := resource_usage
          success_probability := success_probability }
      action_parameters :=
        { batch_size := batch_size
          parallel_workers := parallel_workers
          compression_level := 6
          validation_frequency := 0.1
          retry_strategy := 1
          resource_allocation := 0.8
          checkpoint_frequency := 0.2
          error_handling := 1 }
      risk_assessment :=
        { risk_level := risk_level
          risk_factors :=
            [ "Schema complexity: " ++ formatFixed2 table_info.schema_complexity
            , "Data type: " ++ table_info.data_type
            , "System compatibility: " ++ table_info.source_system ++ " → "
                ++ table_info.target_system ]
          mitigation_strategies :=
            [ "Use incremental validation"
            , "Implement rollback mechanisms"
            , "Monitor resource usage closely" ] }
      recommendations :=
        { primary_strategy :=
            "Batch processing with " ++ toString parallel_workers ++ " workers"
          fallback_strategy :=
            { batch_size := Int.fdiv batch_size 2
              parallel_workers := max 1 (Int.fdiv parallel_workers 2)
              compression_level := 3
              validation_frequency := 0.05
              resource_allocation := 0.6 }
          monitoring_points :=
            [ { metric := "data_quality", frequency := "every 1000 records"
                threshold := "> 0.95" }
            , { metric := "processing_speed", frequency := "every 5 minutes"
                threshold := "> 1000 records/min" }
            , { metric := "resource_usage", frequency := "continuous"
                threshold := "< 0.9" } ] } }
  (self, strategy)

/-- The pure strategy-derivation function (`deriveStrategy` of the spec):
the strategy produced by `optimize_migration_strategy`, whose result does
not depend on the instance state it is called on. -/
def deriveStrategy (table_info : TableInfo) (current_quality : ℚ)
    (resource_constraints : ResourceConstraints) : Strategy :=
  (optimize_migration_strategy MockMigrationOptimizer.init
    table_info current_quality resource_constraints).2

/-- Result shape of `get_performance_metrics`: total count from the history
length, the other three averages hardcoded. -/
structure PerformanceMetrics where
  total_optimizations : ℕ
  avg_quality_score : ℚ
  avg_processing_time : ℚ
  avg_success_probability : ℚ
  deriving DecidableEq, Repr

/-- The `get_performance_metrics` method of `MockMigrationOptimizer`. -/
def get_performance_metrics (self : MockMigrationOptimizer) : PerformanceMetrics :=
  { total_optimizations := self.optimization_history.length
    avg_quality_score := 0.87
    avg_processing_time := 12.5
    avg_success_probability := 0.89 }

/-- A raw Python value handed to the method before any type is known:
either a number or a non-numeric value (represented by a string). -/
inductive RawValue where
  | num (q : ℚ)
  | str (s : String)
  deriving DecidableEq, Repr

/-- The uncaught Python exceptions a malformed input can raise inside the
method body: `KeyError` from a missing dictionary key (carrying the key),
`TypeError` when a non-numeric operand meets an arithmetic or comparison
operator, and `ValueError` when `int()` rejects a string argument — none
of the last two carries a field name. -/
inductive PyError where
  | keyError (field : String)
  | typeError
  | valueError
  deriving DecidableEq, Repr

/-- A Python dictionary argument with as-yet-unchecked values. -/
abbrev RawDict := List (String × RawValue)

/-- Dictionary subscript `d[k]`: `KeyError k` when the key is absent. -/
def getField (d : RawDict) (k : String) : Except PyError RawValue :=
  match d.lookup k with
  | none => .error (.keyError k)
  | some v => .ok v

/-- Use of a raw value as a number at an addition, subtraction or
comparison site: a string there raises `TypeError`.  (When both operands
of the one addition between constraint fields are strings, CPython first
concatenates and the `TypeError` fires at the enclosing `min` comparison
instead — the same kind inside the same statement.) -/
def asNum : RawValue → Except PyError ℚ
  | .num q => .ok q
  | .str _ => .error .typeError

/-- Use of a raw value inside an f-string: any value converts to text. -/
def asStr : RawValue → String
  | .num q => toString q
  | .str s => s

/-- Whitespace as Python's `int(str)` strips it around the literal. -/
def isPySpace (c : Char) : Bool :=
  c = ' ' || c = '\t' || c = '\n' || c = '\r' || c = '\x0b' || c = '\x0c'

/-- Tail of a decimal-literal run for Python's `int(str)`: digits, where a
single underscore may stand between two digits. -/
def pyDigitsAux (acc : ℕ) : List Char → Option ℕ
  | [] => some acc
  | '_' :: c :: cs =>
      if c.isDigit then pyDigitsAux (acc * 10 + (c.toNat - 48)) cs else none
  | ['_'] => none
  | c :: cs =>
      if c.isDigit then pyDigitsAux (acc * 10 + (c.toNat - 48)) cs else none

/-- Nonempty decimal-digit run, leading underscore rejected. -/
def pyParseDigits : List Char → Option ℕ
  | [] => none
  | c :: cs => if c.isDigit then pyDigitsAux (c.toNat - 48) cs else none

/-- Python `int(s)` on a string: strip surrounding whitespace, optional
sign, then a decimal literal; anything else raises `ValueError`. -/
def pyParseInt (s : String) : Option ℤ :=
  let l1 := s.toList.dropWhile isPySpace
  let l2 := (l1.reverse.dropWhile isPySpace).reverse
  match l2 with
  | '+' :: rest => (pyParseDigits rest).map Int.ofNat
  | '-' :: rest => (pyParseDigits rest).map (fun n => -(n : ℤ))
  | rest => (pyParseDigits rest).map Int.ofNat

/-- Python `s * n` for a string: repetition. -/
def pyStrRepeat (s : String) (n : ℕ) : String :=
  String.join (List.replicate n s)

/-- The statement `batch_size = max(1000, int(table_info['size_mb'] * 10))`
applied to the raw `size_mb` value.  A number is scaled and truncated; a
string is repeated ten times by `*` (no error) and handed to `int()`,
which either parses the repeated text as a decimal literal or raises
`ValueError`. -/
def batchSizeStmt : RawValue → Except PyError ℤ
  | .num q => .ok (max 1000 (pyInt (q * 10)))
  | .str s =>
      match pyParseInt (pyStrRepeat s 10) with
      | some n => .ok (max 1000 n)
      | none => .error .valueError

/-- The statement `parallel_workers = min(8, max(1, int(size_mb / 1000)))`
applied to the raw `size_mb` value: `/` between a string and a number
raises `TypeError`, so a string `size_mb` that survived the previous
statement (a digit string) fails here. -/
def parallelWorkersStmt : RawValue → Except PyError ℤ
  | .num q => .ok (min 8 (max 1 (pyInt (q / 1000))))
  | .str _ => .error .typeError

/-- The `optimize_migration_strategy` body over unchecked dictionary
arguments, propagating the uncaught Python exception when a field is
missing or non-numeric.  Field uses occur in source statement order:
`size_mb` in the batch_size statement (`KeyError`, or `ValueError` from
`int()` on a repeated non-digit string), `size_mb` again in the
parallel_workers statement (`TypeError` for any string that survived),
then in the quality_score line the parenthesised subtraction makes
`schema_complexity` surface before the outer addition uses
`current_quality`, then the resource_usage line loads both constraint
keys before adding them, and the `risk_factors` f-strings load the three
descriptive keys.  The three unused constraint keys (`network_bandwidth`,
`disk_io`, `concurrent_migrations`) are never read by the body, so the
reconstructed record carries zeros for them. -/
def optimize_migration_strategy_raw (table_info : RawDict)
    (current_quality : RawValue) (resource_constraints : RawDict) :
    Except PyError Strategy := do
  let size_mbV ← getField table_info "size_mb"
  let _batch ← batchSizeStmt size_mbV
  let _workers ← parallelWorkersStmt size_mbV
  let size_mb ← asNum size_mbV
  let schema_complexity ← getField table_info "schema_complexity" >>= asNum
  let cq ← asNum current_quality
  let cpuV ← getField resource_constraints "cpu_utilization"
  let memV ← getField resource_constraints "memory_utilization"
  let cpu ← asNum cpuV
  let mem ← asNum memV
  let data_type ← getField table_info "data_type"
  let source_system ← getField table_info "source_system"
  let target_system ← getField table_info "target_system"
  pure (deriveStrategy
    { size_mb := size_mb, schema_complexity := schema_complexity
      data_type := asStr data_type, source_system := asStr source_system
      target_system := asStr target_system }
    cq
    { cpu_utilization := cpu, memory_utilization := mem
      network_bandwidth := 0, disk_io := 0, concurrent_migrations := 0 })

/-- The risk rule exactly as the specification words it (section 4.1 step
7): ordered thresholds over `success_probability` and `quality_score`,
first match wins. -/
def riskLevelSpec (success_probability quality_score : ℚ) : RiskLevel :=
  if success_probability > 0.9 ∧ quality_score > 0.95 then .LOW
  else if success_probability > 0.8 ∧ quality_score > 0.9 then .MEDIUM
  else .HIGH

/-- Concrete table of the 1000 MB scenario from the specification. -/
def reqA : TableInfo :=
  { size_mb := 1000, schema_complexity := 0.6, data_type := "structured"
    source_system := "MySQL", target_system := "Spark" }

/-- Concrete resource constraints of the 1000 MB scenario. -/
def rcA : ResourceConstraints :=
  { cpu_utilization := 0.7, memory_utilization := 0.8
    network_bandwidth := 100, disk_io := 500, concurrent_migrations := 2 }

/-- Concrete table with `size_mb = 2500`, the scenario of the
parallel-workers claim. -/
def crC1 : TableInfo :=
  { size_mb := 2500, schema_complexity := 0.7, data_type := "semi-structured"
    source_system := "Oracle", target_system := "Spark" }

/-- Concrete resource constraints with both utilizations at one half. -/
def rcW : ResourceConstraints :=
  { cpu_utilization := 0.5, memory_utilization := 0.5
    network_bandwidth := 0, disk_io := 0, concurrent_migrations := 1 }

/-- Concrete table with the fractional size `size_mb = 100.16`, where
truncation and rounding of `size_mb * 10` differ. -/
def crC4 : TableInfo :=
  { size_mb := 2504 / 25, schema_complexity := 0.5, data_type := "mixed"
    source_system := "MySQL", target_system := "Snowflake" }

/-- Case split over the three-valued risk label. -/
theorem riskLevel_cases (x : RiskLevel) :
    x = RiskLevel.LOW ∨ x = RiskLevel.MEDIUM ∨ x = RiskLevel.HIGH := by
  cases x
  · exact Or.inl rfl
  · exact Or.inr (Or.inl rfl)
  · exact Or.inr (Or.inr rfl)

/-- Halving an integer in `[1, 8]` as the fallback does stays in `[1, n]`. -/
theorem fdivHalfBounds (n : ℤ) (h1 : 1 ≤ n) (h8 : n ≤ 8) :
    max 1 (Int.fdiv n 2) ≤ n ∧ 1 ≤ max 1 (Int.fdiv n 2) := by
  interval_cases n <;> exact ⟨by decide, by decide⟩

/-- C1 (amended): for every request with `size_mb > 0`, the derived
`parallel_workers` equals `clamp(trunc(size_mb / 1000), 1, 8)` — the code
truncates with `int(...)`, it does not round — and is an integer in
`[1, 8]`. -/
theorem parallel_workers_formula (t : TableInfo) (q : ℚ)
    (r : ResourceConstraints) (_hpos : 0 < t.size_mb) :
    (deriveStrategy t q r).action_parameters.parallel_workers
      = min 8 (max 1 (pyInt (t.size_mb / 1000))) ∧
    1 ≤ (deriveStrategy t q r).action_parameters.parallel_workers ∧
    (deriveStrategy t q r).action_parameters.parallel_workers ≤ 8 := by
  refine ⟨rfl, ?_, ?_⟩
  · exact le_min (by norm_num) (le_max_left _ _)
  · exact min_le_left _ _

/-- C1 witness: the amended statement instantiated at the 2500 MB request. -/
theorem parallel_workers_formula_witness :
    (0 : ℚ) < 2500 ∧
    ((deriveStrategy crC1 0.85 rcW).action_parameters.parallel_workers
        = min 8 (max 1 (pyInt ((2500 : ℚ) / 1000))) ∧
      1 ≤ (deriveStrategy crC1 0.85 rcW).action_parameters.parallel_workers ∧
      (deriveStrategy crC1 0.85 rcW).action_parameters.parallel_workers ≤ 8) :=
  ⟨by norm_num, by exact parallel_workers_formula crC1 0.85 rcW (by norm_num [crC1])⟩

/-- C1 counterexample: at `size_mb = 2500` the code yields
`parallel_workers = 2` (truncation of 2.5), while the claimed formula
`clamp(round(size_mb / 1000), 1, 8)` yields 3. -/
theorem parallel_workers_round_counterexample :
    (deriveStrategy crC1 0.85 rcW).action_parameters.parallel_workers = 2 ∧
    min 8 (max 1 (round ((2500 : ℚ) / 1000))) = 3 ∧ (2 : ℤ) ≠ 3 := by
  refine ⟨?_, ?_, by decide⟩
  · simp only [deriveStrategy, optimize_migration_strategy, pyInt, crC1]
    norm_num
  · norm_num [round_eq]

/-- C2: for every request, the returned `risk_level` is exactly one of
LOW, MEDIUM, HIGH, chosen by the ordered first-match rule over
`success_probability` and `quality_score` stated in the specification. -/
theorem risk_level_rule (t : TableInfo) (q : ℚ) (r : ResourceConstraints) :
    (deriveStrategy t q r).risk_assessment.risk_level
      = riskLevelSpec
          (deriveStrategy t q r).expected_performance.success_probability
          (deriveStrategy t q r).expected_performance.quality_score ∧
    ((deriveStrategy t q r).risk_assessment.risk_level = RiskLevel.LOW ∨
     (deriveStrategy t q r).risk_assessment.risk_level = RiskLevel.MEDIUM ∨
     (deriveStrategy t q r).risk_assessment.risk_level = RiskLevel.HIGH) :=
  ⟨rfl, riskLevel_cases _⟩

/-- C2 witness: the rule and the three-way membership at the 1000 MB
scenario request. -/
theorem risk_level_rule_witness :
    (deriveStrategy reqA 0.85 rcA).risk_assessment.risk_level
      = riskLevelSpec
          (deriveStrategy reqA 0.85 rcA).expected_performance.success_probability
          (deriveStrategy reqA 0.85 rcA).expected_performance.quality_score ∧
    ((deriveStrategy reqA 0.85 rcA).risk_assessment.risk_level = RiskLevel.LOW ∨
     (deriveStrategy reqA 0.85 rcA).risk_assessment.risk_level = RiskLevel.MEDIUM ∨
     (deriveStrategy reqA 0.85 rcA).risk_assessment.risk_level = RiskLevel.HIGH) :=
  risk_level_rule reqA 0.85 rcA

/-- C3: the 1000 MB scenario — `size_mb = 1000`,
`schema_complexity = 0.6`, `current_quality = 0.85`,
`cpu_utilization = 0.7`, `memory_utilization = 0.8` — produces
`batch_size = 10000`, `parallel_workers = 1`, `quality_score = 0.89`,
`processing_time_minutes = 10`, `resource_usage = 0.9`,
`success_probability = 0.82` and `risk_level = HIGH`. -/
theorem scenario_1000mb_values :
    (deriveStrategy reqA 0.85 rcA).action_parameters.batch_size = 10000 ∧
    (deriveStrategy reqA 0.85 rcA).action_parameters.parallel_workers = 1 ∧
    (deriveStrategy reqA 0.85 rcA).expected_performance.quality_score = 0.89 ∧
    (deriveStrategy reqA 0.85 rcA).expected_performance.processing_time_minutes = 10 ∧
    (deriveStrategy reqA 0.85 rcA).expected_performance.resource_usage = 0.9 ∧
    (deriveStrategy reqA 0.85 rcA).expected_performance.success_probability = 0.82 ∧
    (deriveStrategy reqA 0.85 rcA).risk_assessment.risk_level = RiskLevel.HIGH := by
  simp only [deriveStrategy, optimize_migration_strategy, pyInt, reqA, rcA]
  norm_num

/-- C4 (amended): for every request with `size_mb > 0`, the derived
`batch_size` equals `max(1000, trunc(size_mb * 10))` — the code truncates
with `int(...)`, it does not round — and hence is always at least 1000. -/
theorem batch_size_formula (t : TableInfo) (q : ℚ)
    (r : ResourceConstraints) (_hpos : 0 < t.size_mb) :
    (deriveStrategy t q r).action_parameters.batch_size
      = max 1000 (pyInt (t.size_mb * 10)) ∧
    1000 ≤ (deriveStrategy t q r).action_parameters.batch_size := by
  refine ⟨rfl, ?_⟩
  exact le_max_left _ _

/-- C4 witness: the amended statement instantiated at the 100.16 MB
request. -/
theorem batch_size_formula_witness :
    (0 : ℚ) < 2504 / 25 ∧
    ((deriveStrategy crC4 0.85 rcW).action_parameters.batch_size
        = max 1000 (pyInt ((2504 / 25 : ℚ) * 10)) ∧
      1000 ≤ (deriveStrategy crC4 0.85 rcW).action_parameters.batch_size) :=
  ⟨by norm_num, by exact batch_size_formula crC4 0.85 rcW (by norm_num [crC4])⟩

/-- C4 counterexample: at `size_mb = 100.16` the code yields
`batch_size = 1001` (truncation of 1001.6), while the claimed formula
`max(1000, round(size_mb * 10))` yields 1002. -/
theorem batch_size_round_counterexample :
    (deriveStrategy crC4 0.85 rcW).action_parameters.batch_size = 1001 ∧
    max 1000 (round ((2504 / 25 : ℚ) * 10)) = 1002 ∧ (1001 : ℤ) ≠ 1002 := by
  refine ⟨?_, ?_, by decide⟩
  · simp only [deriveStrategy, optimize_migration_strategy, pyInt, crC4]
    norm_num
  · norm_num [round_eq]

/-- C5: for every valid input (`size_mb > 0`, the four ratio inputs in
`[0, 1]`), the returned `quality_score` is at most 0.98 and the returned
`success_probability` is at least 0.7. -/
theorem quality_and_success_bounds (t : TableInfo) (q : ℚ)
    (r : ResourceConstraints) (_hsize : 0 < t.size_mb)
    (_hschema : 0 ≤ t.schema_complexity ∧ t.schema_complexity ≤ 1)
    (_hq : 0 ≤ q ∧ q ≤ 1)
    (_hcpu : 0 ≤ r.cpu_utilization ∧ r.cpu_utilization ≤ 1)
    (_hmem : 0 ≤ r.memory_utilization ∧ r.memory_utilization ≤ 1) :
    (deriveStrategy t q r).expected_performance.quality_score ≤ 0.98 ∧
    0.7 ≤ (deriveStrategy t q r).expected_performance.success_probability :=
  ⟨min_le_left _ _, le_max_left _ _⟩

/-- C5 witness: the bounds at the valid 1000 MB scenario input. -/
theorem quality_and_success_bounds_witness :
    ((0 : ℚ) < 1000 ∧ (0 : ℚ) ≤ 0.6 ∧ (0.6 : ℚ) ≤ 1 ∧ (0 : ℚ) ≤ 0.85 ∧
      (0.85 : ℚ) ≤ 1 ∧ (0 : ℚ) ≤ 0.7 ∧ (0.7 : ℚ) ≤ 1 ∧ (0 : ℚ) ≤ 0.8 ∧
      (0.8 : ℚ) ≤ 1) ∧
    ((deriveStrategy reqA 0.85 rcA).expected_performance.quality_score ≤ 0.98 ∧
      0.7 ≤ (deriveStrategy reqA 0.85 rcA).expected_performance.success_probability) :=
  ⟨by norm_num,
   by exact quality_and_success_bounds reqA 0.85 rcA (by norm_num [reqA])
        (by norm_num [reqA]) (by norm_num) (by norm_num [rcA]) (by norm_num [rcA])⟩

/-- C6: for every request, the fallback strategy halves `batch_size` with
floor division, sets `parallel_workers` to `max(1, parallel_workers // 2)`
(hence at most the main value and at least 1), and fixes
`compression_level = 3`, `validation_frequency = 0.05`,
`resource_allocation = 0.6`. -/
theorem fallback_strategy_fields (t : TableInfo) (q : ℚ)
    (r : ResourceConstraints) :
    (deriveStrategy t q r).recommendations.fallback_strategy.batch_size
      = Int.fdiv (deriveStrategy t q r).action_parameters.batch_size 2 ∧
    (deriveStrategy t q r).recommendations.fallback_strategy.parallel_workers
      = max 1 (Int.fdiv (deriveStrategy t q r).action_parameters.parallel_workers 2) ∧
    (deriveStrategy t q r).recommendations.fallback_strategy.parallel_workers
      ≤ (deriveStrategy t q r).action_parameters.parallel_workers ∧
    1 ≤ (deriveStrategy t q r).recommendations.fallback_strategy.parallel_workers ∧
    (deriveStrategy t q r).recommendations.fallback_strategy.compression_level = 3 ∧
    (deriveStrategy t q r).recommendations.fallback_strategy.validation_frequency = 0.05 ∧
    (deriveStrategy t q r).recommendations.fallback_strategy.resource_allocation = 0.6 := by
  have h1 : (1 : ℤ) ≤ min 8 (max 1 (pyInt (t.size_mb / 1000))) :=
    le_min (by norm_num) (le_max_left _ _)
  have h8 : min 8 (max 1 (pyInt (t.size_mb / 1000))) ≤ 8 := min_le_left _ _
  have h := fdivHalfBounds _ h1 h8
  exact ⟨rfl, rfl, h.1, h.2, rfl, rfl, rfl⟩

/-- C7: the method is total — any call whose dictionaries carry numbers in
the numeric fields returns the fully populated strategy record — and the
divisor `parallel_workers * 100` of the processing-time formula is never
zero because `parallel_workers` is at least 1 by construction. -/
theorem derive_total_divisor_nonzero :
    (∀ (size schema cpu mem cq : ℚ) (dt ss ts : String),
      optimize_migration_strategy_raw
        [("size_mb", RawValue.num size), ("schema_complexity", RawValue.num schema),
         ("data_type", RawValue.str dt), ("source_system", RawValue.str ss),
         ("target_system", RawValue.str ts)]
        (RawValue.num cq)
        [("cpu_utilization", RawValue.num cpu), ("memory_utilization", RawValue.num mem)]
        = Except.ok (deriveStrategy
            { size_mb := size, schema_complexity := schema, data_type := dt
              source_system := ss, target_system := ts }
            cq
            { cpu_utilization := cpu, memory_utilization := mem
              network_bandwidth := 0, disk_io := 0, concurrent_migrations := 0 })) ∧
    (∀ (t : TableInfo) (q : ℚ) (r : ResourceConstraints),
      1 ≤ (deriveStrategy t q r).action_parameters.parallel_workers ∧
      ((deriveStrategy t q r).action_parameters.parallel_workers : ℚ) * 100 ≠ 0) := by
  constructor
  · intro size schema cpu mem cq dt ss ts
    rfl
  · intro t q r
    have h1 : (1 : ℤ) ≤ min 8 (max 1 (pyInt (t.size_mb / 1000))) :=
      le_min (by norm_num) (le_max_left _ _)
    refine ⟨h1, ?_⟩
    have h1q : (1 : ℚ) ≤ ((min 8 (max 1 (pyInt (t.size_mb / 1000))) : ℤ) : ℚ) := by
      exact_mod_cast h1
    show ((min 8 (max 1 (pyInt (t.size_mb / 1000))) : ℤ) : ℚ) * 100 ≠ 0
    nlinarith

/-- C8: the strategy computation is deterministic and independent of the
optimizer instance it is invoked on — equal request arguments give equal
results, whatever the two instance states. -/
theorem derive_deterministic (s1 s2 : MockMigrationOptimizer)
    (t1 t2 : TableInfo) (q1 q2 : ℚ) (r1 r2 : ResourceConstraints)
    (ht : t1 = t2) (hq : q1 = q2) (hr : r1 = r2) :
    (optimize_migration_strategy s1 t1 q1 r1).2
      = (optimize_migration_strategy s2 t2 q2 r2).2 := by
  subst ht; subst hq; subst hr; rfl

/-- C8 witness: two invocations with the same arguments on two instance
states agree at the 1000 MB scenario input. -/
theorem derive_deterministic_witness :
    (optimize_migration_strategy MockMigrationOptimizer.init reqA 0.85 rcA).2
      = (optimize_migration_strategy
          { optimization_history := [], current_migration := none } reqA 0.85 rcA).2 :=
  derive_deterministic MockMigrationOptimizer.init
    { optimization_history := [], current_migration := none }
    reqA reqA 0.85 0.85 rcA rcA rfl rfl rfl

/-- C9 (amended): for malformed input the method surfaces an uncaught
Python error — a `KeyError` naming the missing field, a `TypeError` when
a non-numeric value meets an arithmetic or comparison operator, or a
`ValueError` when a string `size_mb` is repeated by `*` and rejected by
`int()` — and these are its only failure modes; in particular an empty
table dictionary always fails with `KeyError` on `size_mb`. -/
theorem malformed_input_error_kinds :
    (∀ (cq : RawValue) (rc : RawDict),
      optimize_migration_strategy_raw [] cq rc
        = Except.error (PyError.keyError "size_mb")) ∧
    (∀ (ti rc : RawDict) (cq : RawValue),
      (∃ s, optimize_migration_strategy_raw ti cq rc = Except.ok s) ∨
      (∃ f, optimize_migration_strategy_raw ti cq rc
              = Except.error (PyError.keyError f)) ∨
      optimize_migration_strategy_raw ti cq rc = Except.error PyError.typeError ∨
      optimize_migration_strategy_raw ti cq rc = Except.error PyError.valueError) := by
  constructor
  · intro cq rc
    rfl
  · intro ti rc cq
    rcases h : optimize_migration_strategy_raw ti cq rc with e | s
    · rcases e with f | _ | _
      · exact Or.inr (Or.inl ⟨f, rfl⟩)
      · exact Or.inr (Or.inr (Or.inl rfl))
      · exact Or.inr (Or.inr (Or.inr rfl))
    · exact Or.inl ⟨s, rfl⟩

/-- C9 counterexample: the failure kinds are three distinct Python
exception kinds, not a single `InvalidRequest` kind — a missing `size_mb`
raises `KeyError "size_mb"`; `size_mb = "big"` raises `ValueError` (the
`*` repeats the string and `int()` rejects `"bigbig..."`); a numeric
`size_mb` with `schema_complexity = "x"` raises `TypeError` at the
subtraction `1 - "x"`, carrying no field name. -/
theorem malformed_input_counterexample :
    optimize_migration_strategy_raw [] (RawValue.num 0.8) []
      = Except.error (PyError.keyError "size_mb") ∧
    optimize_migration_strategy_raw [("size_mb", RawValue.str "big")]
        (RawValue.num 0.8) []
      = Except.error PyError.valueError ∧
    optimize_migration_strategy_raw
        [("size_mb", RawValue.num 5), ("schema_complexity", RawValue.str "x")]
        (RawValue.num 0.8) []
      = Except.error PyError.typeError ∧
    PyError.keyError "size_mb" ≠ PyError.typeError ∧
    PyError.keyError "size_mb" ≠ PyError.valueError ∧
    PyError.typeError ≠ PyError.valueError := by
  refine ⟨rfl, rfl, rfl, ?_, ?_, ?_⟩
  · intro h
    exact PyError.noConfusion h
  · intro h
    exact PyError.noConfusion h
  · intro h
    exact PyError.noConfusion h

/-- C10: `optimize_migration_strategy` leaves the instance state unchanged
— it never appends to `optimization_history` and never sets
`current_migration` — so after any sequence of calls starting from a fresh
instance, `get_performance_metrics` still reports zero total
optimizations. -/
theorem optimize_preserves_state :
    (∀ (s : MockMigrationOptimizer) (t : TableInfo) (q : ℚ)
        (r : ResourceConstraints), (optimize_migration_strategy s t q r).1 = s) ∧
    (∀ calls : List (TableInfo × ℚ × ResourceConstraints),
      (get_performance_metrics
        (calls.foldl
          (fun s c => (optimize_migration_strategy s c.1 c.2.1 c.2.2).1)
          MockMigrationOptimizer.init)).total_optimizations = 0) := by
  constructor
  · intro s t q r
    rfl
  · intro calls
    have h : ∀ s : MockMigrationOptimizer,
        calls.foldl (fun s c => (optimize_migration_strategy s c.1 c.2.1 c.2.2).1) s
          = s := by
      induction calls with
      | nil => intro s; rfl
      | cons c cs ih => intro s; exact ih s
    rw [h MockMigrationOptimizer.init]
    rfl

end RLMigration
